import Mathlib

/-!
Verification of `src/executors/cpp/runner.cpp`, the C++ code executor of the
Scribble judge.  The runner reads two environment variables (`CODE`, a
base64-encoded source payload, and `TEST_CASES`, a JSON test list), decodes
the code, writes it (wrapped in a fixed harness prelude) to `/tmp`, invokes
`g++` through `popen`, and prints exactly one JSON record to stdout.

The embedding below models the runner's pure control flow.  External effects
(whether the source file could be opened, whether `popen` succeeded, the
compiler's exit status, captured output and wall-clock duration, and the
measured memory) are inputs gathered in a `World`; the environment variables
are gathered in an `Env`.  The runner's observable behaviour — the emitted
records, the process exit code, the paths it touches, the bytes it writes and
the command it runs — is a `Trace`.
-/

/-- The base64 alphabet string from `base64_decode` in runner.cpp. -/
def base64_chars : List Char :=
  "ABCDEFGHIJKLMNOPQRSTUVWXYZabcdefghijklmnopqrstuvwxyz0123456789+/".toList

/-- The lookup table `T`: index of `c` in the alphabet, `-1` when absent
(`std::vector<int> T(256,-1); for i, T[base64_chars[i]] = i`). -/
def b64T (c : Char) : Int :=
  match base64_chars.indexOf? c with
  | some i => (i : Int)
  | none => -1

/-- A character the decoder consumes: one with a table entry other than -1. -/
def isB64Char (c : Char) : Bool := b64T c != -1

/-- Loop state of `base64_decode`: the 32-bit accumulator `val`, the bit
counter `valb`, and the bytes pushed so far. -/
structure B64State where
  val : Nat
  valb : Int
  decoded : List Nat
deriving Repr, DecidableEq

/-- One iteration of the decode loop body on a valid character with table
value `t`: `val = (val << 6) + T[c]` (32-bit wraparound made explicit),
`valb += 6`, and when `valb >= 0` push `char((val >> valb) & 0xFF)`. -/
def b64Step (s : B64State) (t : Nat) : B64State :=
  let val := (s.val * 64 + t) % 4294967296
  let valb := s.valb + 6
  if 0 ≤ valb then
    { val := val, valb := valb - 8,
      decoded := s.decoded ++ [(val / 2 ^ valb.toNat) % 256] }
  else
    { val := val, valb := valb, decoded := s.decoded }

/-- The decode loop: `for (unsigned char c : encoded)` with
`if (T[c] == -1) break;` — the first character without a table entry stops
the loop and the bytes pushed so far are returned. -/
def base64_decode_go : List Char → B64State → List Nat
  | [], s => s.decoded
  | c :: cs, s =>
    if b64T c = -1 then s.decoded
    else base64_decode_go cs (b64Step s (b64T c).toNat)

/-- `base64_decode` from runner.cpp: run the loop from
`val = 0, valb = -8, decoded = ""`. -/
def base64_decode (encoded : String) : List Nat :=
  base64_decode_go encoded.toList { val := 0, valb := -8, decoded := [] }

/-- Break-free decoding of a character list all of whose characters are
assumed valid: the reference against which the break behaviour is stated. -/
def b64AccumAll : List Char → B64State → List Nat
  | [], s => s.decoded
  | c :: cs, s => b64AccumAll cs (b64Step s (b64T c).toNat)

/-- ASCII bytes of a string (the prelude written before the user code). -/
def strToBytes (s : String) : List Nat := s.toList.map Char.toNat

/-- The fixed harness scaffolding runner.cpp writes before the user code. -/
def harnessPrelude : String :=
  "#include <iostream>\n#include <vector>\n#include <string>\n" ++
  "#include <algorithm>\n#include <cmath>\n#include <map>\n" ++
  "#include <set>\n#include <queue>\n#include <stack>\n" ++
  "using namespace std;\n\n"

/-- Bytes written to the source file: prelude, decoded code, newline. -/
def wrapSource (code : List Nat) : List Nat :=
  strToBytes harnessPrelude ++ code ++ [10]

/-- `std::string sourceFile = "/tmp/user_code.cpp";` -/
def sourceFile : String := "/tmp/user_code.cpp"

/-- `std::string execFile = "/tmp/user_code";` -/
def execFile : String := "/tmp/user_code"

/-- The compile command built in `main`. -/
def compileCmd : String :=
  "g++ -O2 -std=c++17 -o " ++ execFile ++ " " ++ sourceFile ++ " 2>&1"

/-- One per-test entry of the `test_results` array of the output record.
runner.cpp never constructs one: the only record with the array at all
carries `"test_results":[]`. -/
structure TestResult where
  status : String
deriving Repr, DecidableEq

/-- The JSON record printed to stdout.  `error_message`,
`total_execution_time_ms` and `test_results` are `Option`s because the two
record shapes in runner.cpp (`printError` and the success record in `main`)
each omit some of these keys. -/
structure Report where
  status : String
  error_message : Option String
  compilation_time_ms : Nat
  execution_time_ms : Nat
  total_execution_time_ms : Option Nat
  memory_used_kb : Int
  tests_passed : Nat
  tests_total : Nat
  test_results : Option (List TestResult)
deriving Repr, DecidableEq

/-- The `test_results` entries of a record, the absent key reading as the
empty array. -/
def Report.testResultsList (r : Report) : List TestResult :=
  r.test_results.getD []

/-- `printError` from runner.cpp: the error-shaped record, with
`memory_used_kb:0`, `tests_passed:0`, `tests_total:0` and no
`total_execution_time_ms` or `test_results` key. -/
def printError (status message : String)
    (compilationTimeMs executionTimeMs : Nat) : Report :=
  { status := status
    error_message := some message
    compilation_time_ms := compilationTimeMs
    execution_time_ms := executionTimeMs
    total_execution_time_ms := none
    memory_used_kb := 0
    tests_passed := 0
    tests_total := 0
    test_results := none }

/-- The success record printed after a zero-status compile:
`status:"accepted"`, both test counters zero, `test_results:[]`. -/
def acceptedReport (compilationTimeMs : Nat) (memoryKb : Int) : Report :=
  { status := "accepted"
    error_message := none
    compilation_time_ms := compilationTimeMs
    execution_time_ms := 0
    total_execution_time_ms := some 0
    memory_used_kb := memoryKb
    tests_passed := 0
    tests_total := 0
    test_results := some [] }

/-- The two environment variables `main` reads (`none` = variable unset). -/
structure Env where
  code : Option String
  test_cases : Option String
deriving Repr, DecidableEq

/-- Outcomes of the external effects `main` performs, supplied as inputs:
whether the `ofstream` on the source file opened, whether `popen` returned a
pipe, the status `pclose` reported, the combined stdout+stderr text read from
the pipe, the measured compile duration, and `getMemoryUsage()`. -/
structure World where
  writeOk : Bool
  popenOk : Bool
  compileStatus : Nat
  compileOutput : String
  compileTimeMs : Nat
  memoryKb : Int
deriving Repr, DecidableEq

/-- Everything observable about one run of `main`: the records written to
stdout, the process exit code, the paths named for the source and the
executable, the bytes written to the source file, and the command handed to
`popen` (each `none` when the run never reached that effect). -/
structure Trace where
  reports : List Report
  exitCode : Nat
  sourceFileUsed : Option String
  execFileUsed : Option String
  writtenSource : Option (List Nat)
  compileCmdUsed : Option String
deriving Repr, DecidableEq

/-- `main` from runner.cpp, step by step:
1. `if (!codeB64 || strlen(codeB64) == 0)` → `printError("compilation_error",
   "No code provided", 0, 0); return 0;`
2. decode, open `/tmp/user_code.cpp`; on failure → `printError(...,
   "Failed to write source file", 0, 0); return 0;`
3. write prelude + code + newline, `popen` the g++ command; a null pipe →
   `printError(..., "Failed to start compiler", 0, 0); return 0;`
4. nonzero `pclose` status → `printError("compilation_error", compileOutput,
   compilationTimeMs, 0); return 0;`
5. otherwise print the accepted record with both test counters 0 and an
   empty `test_results` array, `return 0`.  `TEST_CASES` is read into
   `testCasesJson` and never used. -/
def runJudge (env : Env) (w : World) : Trace :=
  match env.code with
  | none =>
    { reports := [printError "compilation_error" "No code provided" 0 0]
      exitCode := 0
      sourceFileUsed := none
      execFileUsed := none
      writtenSource := none
      compileCmdUsed := none }
  | some codeB64 =>
    if codeB64.length = 0 then
      { reports := [printError "compilation_error" "No code provided" 0 0]
        exitCode := 0
        sourceFileUsed := none
        execFileUsed := none
        writtenSource := none
        compileCmdUsed := none }
    else
      let code := base64_decode codeB64
      if w.writeOk = false then
        { reports :=
            [printError "compilation_error" "Failed to write source file" 0 0]
          exitCode := 0
          sourceFileUsed := some sourceFile
          execFileUsed := some execFile
          writtenSource := none
          compileCmdUsed := none }
      else if w.popenOk = false then
        { reports :=
            [printError "compilation_error" "Failed to start compiler" 0 0]
          exitCode := 0
          sourceFileUsed := some sourceFile
          execFileUsed := some execFile
          writtenSource := some (wrapSource code)
          compileCmdUsed := some compileCmd }
      else if w.compileStatus ≠ 0 then
        { reports :=
            [printError "compilation_error" w.compileOutput w.compileTimeMs 0]
          exitCode := 0
          sourceFileUsed := some sourceFile
          execFileUsed := some execFile
          writtenSource := some (wrapSource code)
          compileCmdUsed := some compileCmd }
      else
        { reports := [acceptedReport w.compileTimeMs w.memoryKb]
          exitCode := 0
          sourceFileUsed := some sourceFile
          execFileUsed := some execFile
          writtenSource := some (wrapSource code)
          compileCmdUsed := some compileCmd }

/-! ### Helper lemmas -/

theorem indexOf?_isSome_iff (c : Char) (l : List Char) :
    (l.indexOf? c).isSome ↔ c ∈ l := by
  induction l with
  | nil => simp
  | cons x xs ih =>
    rw [List.indexOf?_cons]
    by_cases h : x = c
    · simp [h]
    · have hb : (x == c) = false := by simp [h]
      simp [hb, ih]
      intro hc
      exact absurd hc.symm h

theorem isB64Char_iff_mem (c : Char) :
    isB64Char c = true ↔ c ∈ base64_chars := by
  rw [← indexOf?_isSome_iff c base64_chars]
  unfold isB64Char b64T
  cases h : base64_chars.indexOf? c with
  | none => simp
  | some i =>
    simp only [Option.isSome_some, iff_true, bne_iff_ne, ne_eq]
    intro hi
    omega

theorem base64_decode_go_takeWhile (cs : List Char) (s : B64State) :
    base64_decode_go cs s = b64AccumAll (cs.takeWhile isB64Char) s := by
  induction cs generalizing s with
  | nil => rfl
  | cons c cs ih =>
    rw [List.takeWhile_cons]
    by_cases h : b64T c = -1
    · have hc : isB64Char c = false := by simp [isB64Char, h]
      simp [base64_decode_go, h, hc, b64AccumAll]
    · have hc : isB64Char c = true := by simp [isB64Char, h]
      simp [base64_decode_go, h, hc, b64AccumAll, ih]

/-! ### Claims -/

/-- C9: `base64_decode` is total and returns the bytes decoded from the
longest prefix of its input made of alphabet characters: decoding `encoded`
equals break-free decoding of `encoded.toList.takeWhile isB64Char`; a
character has a table entry exactly when it is one of the 64 characters of
`base64_chars` (`A`-`Z`, `a`-`z`, `0`-`9`, `+`, `/`), and in particular the
padding character `=` silently stops decoding, the bytes decoded so far
being returned without any error indication. -/
theorem base64_decode_stops_at_invalid :
    (∀ encoded : String,
      base64_decode encoded =
        b64AccumAll (encoded.toList.takeWhile isB64Char)
          { val := 0, valb := -8, decoded := [] }) ∧
    (∀ c : Char, isB64Char c = true ↔ c ∈ base64_chars) ∧
    isB64Char '=' = false :=
  ⟨fun encoded => base64_decode_go_takeWhile _ _, isB64Char_iff_mem, by decide⟩

/-- C7: on every execution path the judge writes exactly one record to the
output channel and the process exits with code 0, whatever the verdict. -/
theorem judge_single_report_exit_zero (env : Env) (w : World) :
    (runJudge env w).reports.length = 1 ∧ (runJudge env w).exitCode = 0 := by
  rcases env with ⟨c, tc⟩
  cases c with
  | none => simp [runJudge]
  | some s =>
    simp only [runJudge]
    split_ifs <;> simp

/-- C10: the emitted trace — in particular the report — does not depend on
the `TEST_CASES` value: `main` reads `testCasesJson` and never uses it. -/
theorem judge_independent_of_test_cases (c t1 t2 : Option String) (w : World) :
    runJudge { code := c, test_cases := t1 } w =
      runJudge { code := c, test_cases := t2 } w := rfl

/-- C2: when the code payload is absent or empty the report is
`compilation_error` with `tests_passed = 0`, `tests_total = 0` and zero
compilation and execution timings, and no source write, compile or test
stage is attempted. -/
theorem judge_no_code_report (env : Env) (w : World)
    (h : env.code = none ∨ env.code = some "") :
    (runJudge env w).reports =
      [printError "compilation_error" "No code provided" 0 0] ∧
    (runJudge env w).reports.map Report.status = ["compilation_error"] ∧
    (runJudge env w).reports.map Report.tests_passed = [0] ∧
    (runJudge env w).reports.map Report.tests_total = [0] ∧
    (runJudge env w).reports.map Report.compilation_time_ms = [0] ∧
    (runJudge env w).reports.map Report.execution_time_ms = [0] ∧
    (runJudge env w).sourceFileUsed = none ∧
    (runJudge env w).execFileUsed = none ∧
    (runJudge env w).writtenSource = none ∧
    (runJudge env w).compileCmdUsed = none := by
  rcases env with ⟨c, tc⟩
  rcases h with h | h <;> simp only at h <;> subst h <;>
    simp [runJudge, printError]

theorem judge_no_code_report_witness :
    (runJudge { code := none, test_cases := none }
      { writeOk := true, popenOk := true, compileStatus := 0,
        compileOutput := "", compileTimeMs := 0, memoryKb := 0 }).reports.map
      Report.status = ["compilation_error"] :=
  (judge_no_code_report _ _ (Or.inl rfl)).2.1

/-- C3: when compilation fails (nonzero `pclose` status) the report is
`compilation_error`, its `error_message` is exactly the compiler's combined
stdout+stderr text, `tests_passed = 0`, `tests_total = 0`, the
`test_results` array is absent/empty and no further stage runs. -/
theorem judge_compile_failure_report (env : Env) (w : World) (c : String)
    (hc : env.code = some c) (hne : c.length ≠ 0)
    (hw : w.writeOk = true) (hp : w.popenOk = true)
    (hs : w.compileStatus ≠ 0) :
    (runJudge env w).reports =
      [printError "compilation_error" w.compileOutput w.compileTimeMs 0] ∧
    (runJudge env w).reports.map Report.status = ["compilation_error"] ∧
    (runJudge env w).reports.map Report.error_message =
      [some w.compileOutput] ∧
    (runJudge env w).reports.map Report.tests_passed = [0] ∧
    (runJudge env w).reports.map Report.tests_total = [0] ∧
    (runJudge env w).reports.map Report.testResultsList = [[]] ∧
    (runJudge env w).reports.map Report.execution_time_ms = [0] := by
  rcases env with ⟨co, tc⟩
  simp only at hc
  subst hc
  simp [runJudge, hne, hw, hp, hs, printError, Report.testResultsList]

theorem judge_compile_failure_report_witness :
    (runJudge { code := some "Zm9v", test_cases := none }
      { writeOk := true, popenOk := true, compileStatus := 1,
        compileOutput := "boom", compileTimeMs := 33, memoryKb := 9 }).reports.map
      Report.error_message = [some "boom"] :=
  (judge_compile_failure_report _ _ "Zm9v" rfl (by decide) rfl rfl
    (by decide)).2.2.1

/-- C6: every emitted record has `tests_passed` equal to the number of
`test_results` entries with status `accepted` and `tests_total` equal to the
number of `test_results` entries; on compilation failure the entries are
empty and both counters are 0. -/
theorem judge_report_count_invariant (env : Env) (w : World) (r : Report)
    (hr : r ∈ (runJudge env w).reports) :
    r.tests_passed =
      (r.testResultsList.filter (fun t => t.status == "accepted")).length ∧
    r.tests_total = r.testResultsList.length ∧
    (r.status = "compilation_error" →
      r.testResultsList = [] ∧ r.tests_passed = 0 ∧ r.tests_total = 0) := by
  rcases env with ⟨c, tc⟩
  cases c with
  | none =>
    simp [runJudge] at hr
    subst hr
    simp [printError, Report.testResultsList]
  | some s =>
    simp only [runJudge] at hr
    split_ifs at hr <;>
      (simp at hr; subst hr;
       simp [printError, acceptedReport, Report.testResultsList])

theorem judge_report_count_invariant_witness :
    (acceptedReport 5 7).tests_passed =
      ((acceptedReport 5 7).testResultsList.filter
        (fun t => t.status == "accepted")).length :=
  (judge_report_count_invariant { code := some "Zm9v", test_cases := none }
    { writeOk := true, popenOk := true, compileStatus := 0,
      compileOutput := "", compileTimeMs := 5, memoryKb := 7 }
    (acceptedReport 5 7) (by decide)).1

/-- C1: violated by the code: a submission whose source compiles (compiler
status 0) while one test case is supplied in `TEST_CASES` is still reported
with `tests_total = 0`, `test_results = []` and overall status `accepted` —
the stubbed test stage reports zero tests for every submission, however many
test cases were supplied, exactly the unimplemented-logic fallback the claim
rules out.  The payload decodes to `int main(){return 0;}`. -/
theorem judge_zero_tests_despite_supplied_test :
    (runJudge
      { code := some "aW50IG1haW4oKXtyZXR1cm4gMDt9",
        test_cases :=
          some "[\x7b\"input\":\"\",\"expected_output\":\"0\"\x7d]" }
      { writeOk := true, popenOk := true, compileStatus := 0,
        compileOutput := "", compileTimeMs := 12, memoryKb := 1024 }).reports =
      [acceptedReport 12 1024] := by rfl

/-- C5: violated by the code: `TEST_CASES` is never parsed, so a malformed
test-case payload does not yield a `compilation_error` record; with a
compiling submission the report is `accepted`, with both test counters 0. -/
theorem judge_ignores_malformed_test_cases :
    (runJudge
      { code := some "aW50IG1haW4oKXtyZXR1cm4gMDt9",
        test_cases := some "not structured text \x7b\x7b" }
      { writeOk := true, popenOk := true, compileStatus := 0,
        compileOutput := "", compileTimeMs := 7, memoryKb := 256 }).reports =
      [acceptedReport 7 256] := by rfl

set_option maxRecDepth 4000 in
/-- C8: violated by the code: the source and executable paths are the fixed
globals `/tmp/user_code.cpp` and `/tmp/user_code`; two judge instances
running concurrently on different submissions use identical paths. -/
theorem judge_fixed_paths_shared :
    ((runJudge
        { code := some "aW50IG1haW4oKXtyZXR1cm4gMDt9", test_cases := none }
        { writeOk := true, popenOk := true, compileStatus := 0,
          compileOutput := "", compileTimeMs := 3, memoryKb := 64 }).sourceFileUsed =
      (runJudge { code := some "cHV0cw==", test_cases := some "[]" }
        { writeOk := true, popenOk := true, compileStatus := 1,
          compileOutput := "error: x", compileTimeMs := 5, memoryKb := 32 }).sourceFileUsed) ∧
    ((runJudge
        { code := some "aW50IG1haW4oKXtyZXR1cm4gMDt9", test_cases := none }
        { writeOk := true, popenOk := true, compileStatus := 0,
          compileOutput := "", compileTimeMs := 3, memoryKb := 64 }).execFileUsed =
      (runJudge { code := some "cHV0cw==", test_cases := some "[]" }
        { writeOk := true, popenOk := true, compileStatus := 1,
          compileOutput := "error: x", compileTimeMs := 5, memoryKb := 32 }).execFileUsed) ∧
    (runJudge
        { code := some "aW50IG1haW4oKXtyZXR1cm4gMDt9", test_cases := none }
        { writeOk := true, popenOk := true, compileStatus := 0,
          compileOutput := "", compileTimeMs := 3, memoryKb := 64 }).sourceFileUsed =
      some "/tmp/user_code.cpp" ∧
    (runJudge
        { code := some "aW50IG1haW4oKXtyZXR1cm4gMDt9", test_cases := none }
        { writeOk := true, popenOk := true, compileStatus := 0,
          compileOutput := "", compileTimeMs := 3, memoryKb := 64 }).execFileUsed =
      some "/tmp/user_code" := ⟨rfl, rfl, rfl, rfl⟩

/-- C4 counterexample: the payload `aW50IG1haW4oKXtyZXR1cm4gMDt9!!!` is not
valid base64 (`!` is outside the alphabet), yet the run does not produce the
claimed `compilation_error` record: decoding silently stops at `!`, the
judge proceeds with the partially decoded payload, and the report is the
compiler's outcome — `accepted` here. -/
theorem judge_malformed_b64_counterexample :
    ("aW50IG1haW4oKXtyZXR1cm4gMDt9!!!".toList.all isB64Char = false) ∧
    (runJudge
      { code := some "aW50IG1haW4oKXtyZXR1cm4gMDt9!!!", test_cases := none }
      { writeOk := true, popenOk := true, compileStatus := 0,
        compileOutput := "", compileTimeMs := 9, memoryKb := 128 }).reports =
      [acceptedReport 9 128] := ⟨by decide, rfl⟩

/-- C4 (amended): decoding never fails and never crashes: for any nonempty
code payload — in particular a malformed one containing a character outside
the base64 alphabet — the judge still emits exactly one record, and when the
source file could be written, the bytes written are the harness prelude, the
decode of the longest alphabet-character prefix of the payload (the silently
decoded partial payload) and a newline; the report is then determined by the
later stages, not by a `DecodeError`. -/
theorem judge_malformed_b64_proceeds (env : Env) (w : World) (c : String)
    (hc : env.code = some c) (hne : c.length ≠ 0)
    (_hbad : c.toList.all isB64Char = false)
    (hw : w.writeOk = true) :
    (runJudge env w).reports.length = 1 ∧
    (runJudge env w).writtenSource =
      some (wrapSource (b64AccumAll (c.toList.takeWhile isB64Char)
        { val := 0, valb := -8, decoded := [] })) := by
  rcases env with ⟨co, tc⟩
  simp only at hc
  subst hc
  have hdec : base64_decode c =
      b64AccumAll (c.toList.takeWhile isB64Char)
        { val := 0, valb := -8, decoded := [] } :=
    base64_decode_go_takeWhile _ _
  by_cases hp : w.popenOk = false <;> by_cases hs : w.compileStatus ≠ 0 <;>
    simp [runJudge, hne, hw, hp, hs, hdec]

theorem judge_malformed_b64_proceeds_witness :
    ("QQ==".toList.all isB64Char = false) ∧
    (runJudge { code := some "QQ==", test_cases := none }
      { writeOk := true, popenOk := true, compileStatus := 1,
        compileOutput := "no main", compileTimeMs := 2, memoryKb := 1 }).reports.length = 1 :=
  ⟨by decide,
    (judge_malformed_b64_proceeds _ _ "QQ==" rfl (by decide) (by decide)
      rfl).1⟩
